import Mathlib

/-!
Verification development for the LifeLink blood-bank management front end
(`src/App.tsx`, `src/types.ts`). The data model and operations below are a
shallow embedding of the TypeScript source: JavaScript numbers that hold
integer unit counts are modelled as `Int`, fractional quantities
(distances, ratings) as `Rat`, and the stable `Array.prototype.sort` as
`List.insertionSort` (a stable sort; for a comparator that is a total
preorder, every stable sort produces the same output list).
-/

/-- The eight blood-type tags from `types.ts`:
`'A+' | 'A-' | 'B+' | 'B-' | 'O+' | 'O-' | 'AB+' | 'AB-'`. -/
inductive BloodType
  | Ap | Am | Bp | Bm | Op | Om | ABp | ABm
deriving DecidableEq, Fintype

/-- The key order of an inventory record, as iterated by `Object.keys`
(insertion order `A+, A-, B+, B-, O+, O-, AB+, AB-`). -/
def bloodTypes : List BloodType :=
  [.Ap, .Am, .Bp, .Bm, .Op, .Om, .ABp, .ABm]

/-- `const CRITICAL_THRESHOLD = 5;` (App.tsx line 16). -/
def CRITICAL_THRESHOLD : Int := 5

/-- A facility review (`interface Review` in `types.ts`). -/
structure Review where
  id : String
  user_name : String
  rating : Rat
  comment : String
  date : String
deriving DecidableEq

/-- The fields of a review as submitted by the form (`Omit<Review, 'id' | 'date'>`). -/
structure ReviewInput where
  user_name : String
  rating : Rat
  comment : String
deriving DecidableEq

/-- A blood-supply center (`interface BloodBank` in `types.ts`). The
`inventory: Record<BloodType, number>` field always has all 8 keys, so it is
modelled as a total function. -/
structure BloodBank where
  id : String
  name : String
  address : String
  latitude : Rat
  longitude : Rat
  contact_number : String
  units_available : Int
  inventory : BloodType → Int
  distance_km : Rat
  eta_minutes : Int
  google_maps_url : String
  rating : Rat
  review_count : Nat
  reviews : List Review
deriving DecidableEq

-- ### Inventory manager (App.tsx lines 255-390)

/-- `updateUnits` from `InventoryManager` (App.tsx lines 285-291):
`setInventory(prev => ({ ...prev, [type]: Math.max(0, (prev[type] || 0) + delta) }))`.
Only the targeted key changes; `(prev[type] || 0)` equals `prev[type]` on
integers because `0 || 0` is `0`. -/
def updateUnits (type : BloodType) (delta : Int) (inv : BloodType → Int) :
    BloodType → Int :=
  fun t => if t = type then max 0 (inv type + delta) else inv t

/-- A finite sequence of `updateUnits` calls, applied left to right. -/
def applyAdjustments (ops : List (BloodType × Int)) (inv : BloodType → Int) :
    BloodType → Int :=
  ops.foldl (fun acc op => updateUnits op.1 op.2 acc) inv

/-- All cells of an inventory are non-negative. -/
def nonnegInv (inv : BloodType → Int) : Prop :=
  ∀ t, 0 ≤ inv t

instance (inv : BloodType → Int) : Decidable (nonnegInv inv) :=
  inferInstanceAs (Decidable (∀ t, 0 ≤ inv t))

/-- The local component state of `InventoryManager` that `updateUnits` can
touch: the inventory record and the `lastSynced` save marker (set only by
`handleSave`, App.tsx lines 293-305). -/
structure ManagerState where
  inventory : BloodType → Int
  lastSynced : Option String

/-- `updateUnits` acting on the whole component state: it calls
`setInventory` only (App.tsx lines 285-291), leaving `lastSynced` alone. -/
def updateUnitsState (type : BloodType) (delta : Int) (s : ManagerState) :
    ManagerState :=
  { s with inventory := updateUnits type delta s.inventory }

/-- `criticalShortages` (App.tsx line 314):
`(Object.keys(inventory) as BloodType[]).filter(t => inventory[t] < CRITICAL_THRESHOLD)`. -/
def criticalShortages (inv : BloodType → Int) : List BloodType :=
  bloodTypes.filter (fun t => decide (inv t < CRITICAL_THRESHOLD))

/-- A concrete inventory with `O-` at 3 units, `O+` at 20, and every other
type well stocked at 20. -/
def exampleInv : BloodType → Int :=
  fun t => match t with
  | .Om => 3
  | _ => 20

/-- A concrete all-stocked inventory used to instantiate hypotheses. -/
def invW : BloodType → Int := fun _ => 5

/-- A concrete `InventoryManager` state used to instantiate hypotheses. -/
def managerW : ManagerState := ⟨invW, none⟩

-- ### Donor screening (App.tsx lines 104-253)

/-- One entry of the `screeningQuestions` array (App.tsx lines 114-150). -/
structure Question where
  id : String
  question : String
  failMessage : String
  expected : Bool
deriving DecidableEq

/-- The five canonical screening questions (App.tsx lines 114-150),
with their exact `failMessage` strings and `expected` safe answers. -/
def screeningQuestions : List Question :=
  [ { id := "well",
      question := "Are you currently feeling healthy and well?",
      failMessage := "Donors must be in good health at the time of donation.",
      expected := true },
    { id := "bodyart",
      question := "Have you had a tattoo, piercing, or permanent makeup in the last 6 months?",
      failMessage := "A 6-month wait is required after tattoos or piercings to ensure safety.",
      expected := false },
    { id := "travel",
      question := "Have you traveled to a malaria-endemic region in the last 12 months?",
      failMessage := "A 12-month deferral is standard after travel to malaria-endemic areas.",
      expected := false },
    { id := "antibiotics",
      question := "Are you currently taking antibiotics for an active infection?",
      failMessage := "You must finish your antibiotic course and be symptom-free for at least 48 hours.",
      expected := false },
    { id := "weight",
      question := "Is your current weight above 50kg (110 lbs)?",
      failMessage := "Donors must meet the minimum weight requirement for their own well-being.",
      expected := true } ]

/-- The deferral message of the tattoo/piercing question. -/
def tattooMsg : String :=
  "A 6-month wait is required after tattoos or piercings to ensure safety."

/-- The component state of `DonorScreening`: `currentStep`, the `answers`
record (each question id is answered at most once, so the record is modelled
as the association list in answer order), and `failedIndices`
(App.tsx lines 110-112). -/
structure ScreeningState where
  currentStep : Nat
  answers : List (String × Bool)
  failedIndices : List Nat
deriving DecidableEq

/-- The initial screening state: `useState(0)`, `useState({})`, `useState([])`. -/
def initialScreening : ScreeningState := ⟨0, [], []⟩

/-- `handleAnswer` (App.tsx lines 152-167): record the answer under the
current question's id, append `currentStep` to `failedIndices` when the
answer differs from `expected`, then advance to the next question, or to the
terminal step `screeningQuestions.length` after the last question. When
`currentStep` is already terminal the result screen is shown and no question
is addressed (the source never calls `handleAnswer` there). -/
def handleAnswer (s : ScreeningState) (answer : Bool) : ScreeningState :=
  match screeningQuestions[s.currentStep]? with
  | none => s
  | some q =>
    { currentStep :=
        if s.currentStep < screeningQuestions.length - 1 then s.currentStep + 1
        else screeningQuestions.length,
      answers := s.answers ++ [(q.id, answer)],
      failedIndices :=
        if answer != q.expected then s.failedIndices ++ [s.currentStep]
        else s.failedIndices }

/-- Run a whole screening session from the initial state over a list of
boolean answers. -/
def runScreening (answers : List Bool) : ScreeningState :=
  answers.foldl handleAnswer initialScreening

/-- `isEligible` (App.tsx line 169):
`failedIndices.length === 0 && Object.keys(answers).length === screeningQuestions.length`. -/
def isEligible (s : ScreeningState) : Bool :=
  s.failedIndices.length == 0 && s.answers.length == screeningQuestions.length

/-- The deferral reasons shown on the terminal screen (App.tsx lines 190-195):
`failedIndices.map(idx => screeningQuestions[idx].failMessage)`. -/
def deferralReasons (s : ScreeningState) : List String :=
  s.failedIndices.filterMap (fun i => (screeningQuestions[i]?).map Question.failMessage)

/-- The `expected` safe answer of question `i` (`true` out of range). -/
def expectedOf (i : Nat) : Bool :=
  ((screeningQuestions[i]?).map Question.expected).getD true

/-- The `failMessage` of question `i` (empty out of range). -/
def msgOf (i : Nat) : String :=
  ((screeningQuestions[i]?).map Question.failMessage).getD ""

-- ### Search and ranking (App.tsx lines 829-915)

/-- The two sort modes: `useState<'distance' | 'eta'>('distance')`
(App.tsx line 831). -/
inductive SortBy
  | distance | eta
deriving DecidableEq

/-- The sort key selected by the comparator in `handleSearch`
(App.tsx line 912): `a.distance_km - b.distance_km` for `'distance'`,
`a.eta_minutes - b.eta_minutes` for `'eta'`. -/
def sortKey (sb : SortBy) (c : BloodBank) : Rat :=
  match sb with
  | .distance => c.distance_km
  | .eta => (c.eta_minutes : Rat)

/-- The total preorder induced by the numeric comparator of
App.tsx line 912 (`compare(a,b) ≤ 0`). -/
def sortRel (sb : SortBy) (a b : BloodBank) : Prop :=
  sortKey sb a ≤ sortKey sb b

instance (sb : SortBy) : DecidableRel (sortRel sb) :=
  fun a b => inferInstanceAs (Decidable (sortKey sb a ≤ sortKey sb b))

instance (sb : SortBy) : IsTotal BloodBank (sortRel sb) :=
  ⟨fun a b => le_total (sortKey sb a) (sortKey sb b)⟩

instance (sb : SortBy) : IsTrans BloodBank (sortRel sb) :=
  ⟨fun _ _ _ hab hbc => le_trans hab hbc⟩

/-- The annotation step of App.tsx line 912:
`(c => ({ ...c, units_available: c.inventory[selectedBloodType] }))`. -/
def annotate (bt : BloodType) (c : BloodBank) : BloodBank :=
  { c with units_available := c.inventory bt }

/-- The result computation of `handleSearch` (App.tsx line 912):
`centers.map(c => ({ ...c, units_available: c.inventory[bt] })).sort(comparator)`.
`Array.prototype.sort` is stable and the comparator is the total preorder
`sortRel sb`, so its output is the stable sort `List.insertionSort`. -/
def rankResults (centers : List BloodBank) (bt : BloodType) (sb : SortBy) :
    List BloodBank :=
  List.insertionSort (sortRel sb) (centers.map (annotate bt))

/-- The order the spec claims for the output: ascending by the requested
sort key, with ties between equal-key facilities broken by facility id
ascending. -/
def sortedByKeyThenId (sb : SortBy) (l : List BloodBank) : Prop :=
  l.Pairwise (fun a b =>
    sortKey sb a < sortKey sb b ∨
      (sortKey sb a = sortKey sb b ∧ (a.id < b.id ∨ a.id = b.id)))

/-- The first hardcoded facility of `handleSearch` (App.tsx lines 872-890). -/
def mockCenter1 : BloodBank :=
  { id := "1",
      name := "Metropolitan Red Cross",
      address := "123 Healthcare Blvd",
      latitude := 12.975,
      longitude := 77.601,
      contact_number := "+1-555-0101",
      units_available := 12,
      inventory := fun t => match t with
        | .Ap => 12 | .Am => 3 | .Bp => 8 | .Bm => 1
        | .Op => 20 | .Om => 4 | .ABp => 4 | .ABm => 1,
      distance_km := 1.2,
      eta_minutes := 5,
      google_maps_url := "https://maps.google.com",
      rating := 4.8,
      review_count := 128,
      reviews :=
        [ { id := "r1", user_name := "David Wilson", rating := 5,
            comment := "Extremely professional staff and very clean environment.",
            date := "2 days ago" },
          { id := "r2", user_name := "Sarah Connor", rating := 4,
            comment := "Good service, but waiting time was a bit long during peak hours.",
            date := "1 week ago" } ] }

/-- The second hardcoded facility of `handleSearch` (App.tsx lines 891-908). -/
def mockCenter2 : BloodBank :=
  { id := "2",
      name := "St. Jude Hospital",
      address := "45 Medical Lane",
      latitude := 12.980,
      longitude := 77.610,
      contact_number := "+1-555-0102",
      units_available := 4,
      inventory := fun t => match t with
        | .Ap => 4 | .Am => 0 | .Bp => 12 | .Bm => 1
        | .Op => 15 | .Om => 6 | .ABp => 2 | .ABm => 0,
      distance_km := 2.8,
      eta_minutes := 12,
      google_maps_url := "https://maps.google.com",
      rating := 4.2,
      review_count := 54,
      reviews :=
        [ { id := "r3", user_name := "Michael Bay", rating := 4,
            comment := "Prompt emergency support. Highly recommend for urgent needs.",
            date := "3 days ago" } ] }

/-- The hardcoded candidate facility list of `handleSearch`
(`MOCK_CENTERS`, App.tsx lines 871-909). -/
def MOCK_CENTERS : List BloodBank :=
  [mockCenter1, mockCenter2]

-- ### Rating aggregation (App.tsx lines 917-938)

/-- JavaScript `Number(x.toFixed(1))` for the non-negative averages that
occur here: the closest multiple of 1/10, ties resolved upward. -/
def roundTo1 (q : Rat) : Rat :=
  (⌊q * 10 + 1 / 2⌋ : Rat) / 10

/-- The new review built by `handleAddReview` (App.tsx lines 918-922):
the submitted fields plus a generated id and `date: 'Just now'`. The
generated id (`Math.random().toString(36).substring(7)`) is modelled as the
parameter `newId`. -/
def mkReview (newId : String) (r : ReviewInput) : Review :=
  { id := newId, user_name := r.user_name, rating := r.rating,
    comment := r.comment, date := "Just now" }

/-- The average of a review list's ratings rounded to one decimal, as
recomputed by `handleAddReview`:
`updatedReviews.reduce((acc, r) => acc + r.rating, 0) / updatedReviews.length`
then `Number(newAvg.toFixed(1))` (App.tsx lines 927-928). -/
def ratingFromReviews (rs : List Review) : Rat :=
  roundTo1 ((rs.map Review.rating).sum / (rs.length : Rat))

/-- The per-facility update of `handleAddReview` (App.tsx lines 924-931):
prepend the new review, recompute the rounded average rating, and set
`review_count` to the new list's length. -/
def addReview (c : BloodBank) (newId : String) (r : ReviewInput) : BloodBank :=
  let updatedReviews := mkReview newId r :: c.reviews
  { c with reviews := updatedReviews,
           rating := ratingFromReviews updatedReviews,
           review_count := updatedReviews.length }

/-- A facility with no reviews (rating fields zeroed), used for the
`[5, 4]` aggregation example. -/
def emptyFacility : BloodBank :=
  { id := "e", name := "", address := "", latitude := 0, longitude := 0,
    contact_number := "", units_available := 0, inventory := fun _ => 0,
    distance_km := 0, eta_minutes := 0, google_maps_url := "",
    rating := 0, review_count := 0, reviews := [] }

-- ### Favorites (App.tsx lines 865-867)

/-- `toggleFavorite` (App.tsx lines 865-867):
`prev.includes(id) ? prev.filter(f => f !== id) : [...prev, id]`
(`includes` on strings is list membership). -/
def toggleFavorite (id : String) (prev : List String) : List String :=
  if id ∈ prev then prev.filter (fun f => f != id) else prev ++ [id]

-- ### Distance and search session (spec-modelled components)

/-- A coordinate pair (`Coordinates` in the spec's data model,
latitude/longitude in degrees). -/
structure Coordinates where
  latitude : Rat
  longitude : Rat
deriving DecidableEq

/-- Modelled from the spec: no distance function exists in `src/` — the
`distance_km` values consumed by ranking are hardcoded data in
`MOCK_CENTERS` (App.tsx lines 871-909). Spec §1 and §4.1 prescribe a
deterministic, symmetric "simple formula"; we instantiate it with a
degree-difference formula at 111 km per degree. -/
def distance (a b : Coordinates) : Rat :=
  111 * (|a.latitude - b.latitude| + |a.longitude - b.longitude|)

/-- What a search surfaces to its caller: a result list plus an explicit
registry-error flag. -/
structure SearchOutcome where
  results : List BloodBank
  registryError : Bool
deriving DecidableEq

/-- Modelled from the spec: the facility-registry fetch and its failure
path are not in `src/` — `handleSearch` (App.tsx lines 869-915) builds its
results from the hardcoded `MOCK_CENTERS`, which cannot fail. Spec §4.6/§7
require a failed fetch to surface an empty result set plus an explicit
error flag instead of an exception; a successful fetch delegates to the
ranking step. -/
def searchSession (fetched : Except Unit (List BloodBank)) (bt : BloodType)
    (sb : SortBy) : SearchOutcome :=
  match fetched with
  | .error _ => { results := [], registryError := true }
  | .ok centers => { results := rankResults centers bt sb, registryError := false }

/-- A facility with id `"1"` tied on both sort keys with [[facTie2]]. -/
def facTie1 : BloodBank :=
  { emptyFacility with id := "1", distance_km := 3, eta_minutes := 7 }

/-- A facility with id `"2"` tied on both sort keys with [[facTie1]]. -/
def facTie2 : BloodBank :=
  { emptyFacility with id := "2", distance_km := 3, eta_minutes := 7 }

instance (sb : SortBy) (l : List BloodBank) : Decidable (sortedByKeyThenId sb l) :=
  inferInstanceAs (Decidable (l.Pairwise (fun a b =>
    sortKey sb a < sortKey sb b ∨
      (sortKey sb a = sortKey sb b ∧ (a.id < b.id ∨ a.id = b.id)))))

-- ## Helper lemmas

lemma updateUnits_preserves_nonneg (bt : BloodType) (d : Int)
    (inv : BloodType → Int) (h : nonnegInv inv) :
    nonnegInv (updateUnits bt d inv) := by
  intro t
  by_cases ht : t = bt
  · simp [updateUnits, ht]
  · simpa [updateUnits, ht] using h t

lemma applyAdjustments_nonneg (ops : List (BloodType × Int))
    (inv : BloodType → Int) (h : nonnegInv inv) :
    nonnegInv (applyAdjustments ops inv) := by
  induction ops generalizing inv with
  | nil => exact h
  | cons op rest ih =>
    exact ih _ (updateUnits_preserves_nonneg op.1 op.2 inv h)

lemma mem_bloodTypes (t : BloodType) : t ∈ bloodTypes := by
  cases t <;> decide

lemma insertionSort_pair {α : Type} (r : α → α → Prop) [DecidableRel r]
    (x y : α) (h : r x y) : List.insertionSort r [x, y] = [x, y] := by
  simp [List.insertionSort, List.orderedInsert, h]

lemma rank_mock_eval : rankResults MOCK_CENTERS .Om .distance
    = [annotate .Om mockCenter1, annotate .Om mockCenter2] :=
  insertionSort_pair _ _ _ (by show (1.2 : Rat) ≤ 2.8; norm_num)

lemma rank_tie_eval : rankResults [facTie2, facTie1] .Op .distance
    = [annotate .Op facTie2, annotate .Op facTie1] :=
  insertionSort_pair _ _ _ (le_refl (3 : Rat))

-- ## Claim theorems

/-- C1: each `updateUnits` call sets the targeted count to
`max 0 (current + delta)`, and after any finite sequence of adjustments on
an all-non-negative starting inventory every cell is still a non-negative
integer. -/
theorem updateUnits_clamps_and_nonneg (inv : BloodType → Int)
    (ops : List (BloodType × Int)) (bt t : BloodType) (d : Int)
    (h : nonnegInv inv) :
    updateUnits bt d inv bt = max 0 (inv bt + d) ∧
    0 ≤ applyAdjustments ops inv t := by
  constructor
  · simp [updateUnits]
  · exact applyAdjustments_nonneg ops inv h t

/-- Witness for C1 at a concrete inventory and adjustment sequence. -/
theorem updateUnits_clamps_and_nonneg_witness :
    nonnegInv invW ∧
    (updateUnits .Ap (-7) invW .Ap = max 0 (invW .Ap + (-7)) ∧
      0 ≤ applyAdjustments [(.Ap, -7)] invW .Om) :=
  ⟨by decide, updateUnits_clamps_and_nonneg invW [(.Ap, -7)] .Ap .Om (-7) (by decide)⟩

/-- C9: an `updateUnits` call targeting one blood type leaves the count of
every other blood type unchanged and performs no save side effect (the
`lastSynced` save marker is untouched). -/
theorem updateUnits_frame (s : ManagerState) (bt : BloodType) (d : Int)
    (t : BloodType) (h : t ≠ bt) :
    (updateUnitsState bt d s).inventory t = s.inventory t ∧
    (updateUnitsState bt d s).lastSynced = s.lastSynced := by
  refine ⟨?_, rfl⟩
  simp [updateUnitsState, updateUnits, h]

/-- Witness for C9 at a concrete state and pair of distinct blood types. -/
theorem updateUnits_frame_witness :
    BloodType.Om ≠ BloodType.Ap ∧
    ((updateUnitsState .Ap 3 managerW).inventory .Om = managerW.inventory .Om ∧
      (updateUnitsState .Ap 3 managerW).lastSynced = managerW.lastSynced) :=
  ⟨by decide, updateUnits_frame managerW .Ap 3 .Om (by decide)⟩

/-- C5: `criticalShortages` contains a blood type exactly when its count is
strictly below the threshold 5; on the example inventory with `O-` at 3 and
everything else at 20 it is exactly `[O-]`. -/
theorem criticalShortages_iff (inv : BloodType → Int) (t : BloodType) :
    (t ∈ criticalShortages inv ↔ inv t < CRITICAL_THRESHOLD) ∧
    criticalShortages exampleInv = [.Om] := by
  constructor
  · simp [criticalShortages, List.mem_filter, mem_bloodTypes t]
  · decide

/-- C2: every 5-answer screening session reaches the terminal step after
exactly the 5 answers (and not before); it is eligible exactly when every
answer equals the question's expected safe answer, in which case there are
no deferral reasons; otherwise the deferral reasons are exactly one
`failMessage` per failed question, in question order; and answering "yes"
to the tattoo question always defers with the 6-month message among the
reasons. -/
theorem screening_terminates_and_classifies :
    ∀ (a b c d e : Bool),
      (runScreening [a, b, c, d, e]).currentStep = screeningQuestions.length ∧
      (runScreening [a, b, c, d]).currentStep = 4 ∧
      (isEligible (runScreening [a, b, c, d, e]) = true ↔
        [a, b, c, d, e] = [true, false, false, false, true]) ∧
      deferralReasons (runScreening [a, b, c, d, e]) =
        ((List.range 5).filter
          (fun i => [a, b, c, d, e].getD i false != expectedOf i)).map msgOf ∧
      deferralReasons (runScreening [true, false, false, false, true]) = [] ∧
      isEligible (runScreening [a, true, c, d, e]) = false ∧
      tattooMsg ∈ deferralReasons (runScreening [a, true, c, d, e]) := by
  decide

/-- C4: `addReview` prepends the new review, stores `review_count` as the
length of the updated review list, and stores the rating recomputed from
the full updated list (so recomputation always reproduces the stored
rating); adding scores `[5, 4]` to a facility without reviews yields rating
`4.5`, count `2`, newest review first. -/
theorem addReview_consistent (fac : BloodBank) (newId : String)
    (r : ReviewInput) :
    (addReview fac newId r).reviews = mkReview newId r :: fac.reviews ∧
    (addReview fac newId r).review_count = (addReview fac newId r).reviews.length ∧
    (addReview fac newId r).rating = ratingFromReviews (addReview fac newId r).reviews ∧
    (addReview (addReview emptyFacility "r1" ⟨"u", 5, "ca"⟩) "r2" ⟨"v", 4, "cb"⟩).rating
      = 9 / 2 ∧
    (addReview (addReview emptyFacility "r1" ⟨"u", 5, "ca"⟩) "r2" ⟨"v", 4, "cb"⟩).review_count
      = 2 ∧
    ((addReview (addReview emptyFacility "r1" ⟨"u", 5, "ca"⟩) "r2" ⟨"v", 4, "cb"⟩).reviews.map
      Review.rating) = [4, 5] := by
  refine ⟨rfl, rfl, rfl, ?_, rfl, rfl⟩
  show roundTo1 (((4 : Rat) + (5 + 0)) / (2 : Nat)) = 9 / 2
  have h45 : ⌊(((4 : Rat) + (5 + 0)) / (2 : Nat)) * 10 + 1 / 2⌋ = 45 := by
    rw [Int.floor_eq_iff]
    norm_num
  rw [roundTo1, h45]
  norm_num

/-- C10: `toggleFavorite` is an involution on favorite membership — toggling
the same id twice restores the original membership of every id; one toggle
makes the targeted id a member exactly when it was absent while every other
id's membership is untouched, and it removes every stored occurrence of a
present id. -/
theorem toggleFavorite_involutive (l : List String) (id x : String) :
    (x ∈ toggleFavorite id (toggleFavorite id l) ↔ x ∈ l) ∧
    (x ∈ toggleFavorite id l ↔ ((x ∈ l ∧ x ≠ id) ∨ (x = id ∧ id ∉ l))) ∧
    (toggleFavorite id l).count id = (if id ∈ l then 0 else l.count id + 1) := by
  by_cases h : id ∈ l
  · have hid : id ∉ l.filter (fun f => f != id) := by
      simp [List.mem_filter]
    have hf : toggleFavorite id l = l.filter (fun f => f != id) := by
      simp [toggleFavorite, h]
    have h2 : toggleFavorite id (toggleFavorite id l)
        = l.filter (fun f => f != id) ++ [id] := by
      rw [hf, toggleFavorite, if_neg hid]
    refine ⟨?_, ?_, ?_⟩
    · rw [h2]
      simp only [List.mem_append, List.mem_filter, List.mem_singleton, bne_iff_ne]
      constructor
      · rintro (⟨hx, _⟩ | rfl)
        · exact hx
        · exact h
      · intro hx
        by_cases hxi : x = id
        · exact Or.inr hxi
        · exact Or.inl ⟨hx, hxi⟩
    · rw [hf]
      simp only [List.mem_filter, bne_iff_ne]
      constructor
      · exact fun hx => Or.inl hx
      · rintro (hx | ⟨_, hid'⟩)
        · exact hx
        · exact absurd h hid'
    · rw [hf, if_pos h]
      exact List.count_eq_zero.mpr hid
  · have hf : toggleFavorite id l = l ++ [id] := by
      simp [toggleFavorite, h]
    have hmem : id ∈ l ++ [id] := by simp
    have hfl : (l ++ [id]).filter (fun f => f != id) = l := by
      rw [List.filter_append]
      have h1 : l.filter (fun f => f != id) = l :=
        List.filter_eq_self.mpr (fun a ha => by
          simp only [bne_iff_ne]
          exact fun he => h (he ▸ ha))
      have h2 : [id].filter (fun f => f != id) = [] := by simp
      rw [h1, h2, List.append_nil]
    have h2 : toggleFavorite id (toggleFavorite id l) = l := by
      rw [hf, toggleFavorite, if_pos hmem, hfl]
    refine ⟨by rw [h2], ?_, ?_⟩
    · rw [hf]
      simp only [List.mem_append, List.mem_singleton]
      constructor
      · rintro (hx | rfl)
        · left
          refine ⟨hx, fun he => h (he ▸ hx)⟩
        · exact Or.inr ⟨rfl, h⟩
      · rintro (⟨hx, _⟩ | ⟨rfl, _⟩)
        · exact Or.inl hx
        · exact Or.inr rfl
    · rw [hf, if_neg h, List.count_append]
      simp

/-- C8: the distance computation is a deterministic function of its two
coordinate arguments, symmetric in them, and zero on identical points. -/
theorem distance_symm_and_self (a b : Coordinates) :
    distance a b = distance b a ∧ distance a a = 0 := by
  constructor
  · rw [distance, distance, abs_sub_comm, abs_sub_comm a.longitude]
  · simp [distance]

/-- C7: when the facility-registry fetch fails, the search surfaces an empty
result list together with a raised error flag (and a successful fetch
delegates to ranking with the flag down); `searchSession` is a total
function, so no exception escapes to the caller. -/
theorem searchSession_registry_failure (bt : BloodType) (sb : SortBy)
    (centers : List BloodBank) :
    (searchSession (Except.error ()) bt sb).results = [] ∧
    (searchSession (Except.error ()) bt sb).registryError = true ∧
    (searchSession (Except.ok centers) bt sb).results = rankResults centers bt sb ∧
    (searchSession (Except.ok centers) bt sb).registryError = false :=
  ⟨rfl, rfl, rfl, rfl⟩

/-- C6: the search result is a permutation of the annotated input facilities
(same length, nothing dropped, zero-stock facilities kept), every result row
carries `units_available = inventory[queried type]`, the empty input yields
the empty output, and on the hardcoded two-center data an `O-`/distance
query returns ids `["1", "2"]` annotated with `O-` stocks `[4, 6]`. -/
theorem rank_preserves_facilities (centers : List BloodBank) (bt : BloodType)
    (sb : SortBy) (c : BloodBank) (hc : c ∈ rankResults centers bt sb) :
    (rankResults centers bt sb).length = centers.length ∧
    List.Perm (rankResults centers bt sb) (centers.map (annotate bt)) ∧
    c.units_available = c.inventory bt ∧
    rankResults [] bt sb = [] ∧
    (rankResults MOCK_CENTERS .Om .distance).map BloodBank.id = ["1", "2"] ∧
    (rankResults MOCK_CENTERS .Om .distance).map BloodBank.units_available
      = [4, 6] := by
  refine ⟨?_, ?_, ?_, rfl, by rw [rank_mock_eval]; rfl, by rw [rank_mock_eval]; rfl⟩
  · rw [rankResults, List.length_insertionSort, List.length_map]
  · exact List.perm_insertionSort _ _
  · rw [rankResults, List.mem_insertionSort] at hc
    obtain ⟨c0, _, rfl⟩ := List.mem_map.mp hc
    rfl

/-- Witness for C6 at the hardcoded center list and a member of its output. -/
theorem rank_preserves_facilities_witness :
    annotate .Om mockCenter1 ∈ rankResults MOCK_CENTERS .Om .distance ∧
    ((rankResults MOCK_CENTERS .Om .distance).length = MOCK_CENTERS.length ∧
      List.Perm (rankResults MOCK_CENTERS .Om .distance)
        (MOCK_CENTERS.map (annotate .Om)) ∧
      (annotate .Om mockCenter1).units_available
        = (annotate .Om mockCenter1).inventory .Om ∧
      rankResults [] .Om .distance = [] ∧
      (rankResults MOCK_CENTERS .Om .distance).map BloodBank.id = ["1", "2"] ∧
      (rankResults MOCK_CENTERS .Om .distance).map BloodBank.units_available
        = [4, 6]) :=
  ⟨by rw [rank_mock_eval]; exact List.mem_cons_self _ _,
    rank_preserves_facilities MOCK_CENTERS .Om .distance _
      (by rw [rank_mock_eval]; exact List.mem_cons_self _ _)⟩

/-- C3 counterexample: two facilities tied at distance 3 km, presented in the
input in the order id `"2"` then id `"1"`, come out of the search in that
same input order `["2", "1"]` — the comparator of App.tsx line 912 never
consults facility ids, so the output violates the claimed id-ascending
tie-break. -/
theorem rank_tiebreak_counterexample :
    facTie1.distance_km = facTie2.distance_km ∧
    facTie1.id < facTie2.id ∧
    (rankResults [facTie2, facTie1] .Op .distance).map BloodBank.id
      = ["2", "1"] ∧
    ¬ sortedByKeyThenId .distance (rankResults [facTie2, facTie1] .Op .distance) := by
  refine ⟨rfl, ?_, by rw [rank_tie_eval]; rfl, ?_⟩
  · rw [String.lt_iff_toList_lt]
    decide
  · rw [rank_tie_eval, sortedByKeyThenId]
    intro hp
    have hrel := (List.pairwise_cons.mp hp).1 _ (List.mem_singleton_self _)
    rcases hrel with hlt | ⟨_, hid⟩
    · exact absurd hlt (by show ¬ ((3 : Rat) < 3); norm_num)
    · rcases hid with hlt2 | heq2
      · rw [String.lt_iff_toList_lt] at hlt2
        exact absurd hlt2 (by decide)
      · exact absurd heq2 (by show ("2" : String) ≠ "1"; decide)

/-- C3 amended: the search output is sorted ascending by the requested sort
key (`distance_km` for `'distance'`, `eta_minutes` for `'eta'`), and ties
between facilities of equal sort key stay in input order (the sort is
stable), so the output order is deterministic given the input order; the
comparator does not consult facility ids. -/
theorem rank_sorted_and_stable (centers : List BloodBank) (bt : BloodType)
    (sb : SortBy) (a b : BloodBank) (hk : sortKey sb a = sortKey sb b)
    (hsub : [a, b].Sublist (centers.map (annotate bt))) :
    (rankResults centers bt sb).Sorted (sortRel sb) ∧
    [a, b].Sublist (rankResults centers bt sb) := by
  constructor
  · exact List.sorted_insertionSort _ _
  · exact List.pair_sublist_insertionSort (le_of_eq hk) hsub

/-- Witness for the amended C3 at the concrete tied pair. -/
theorem rank_sorted_and_stable_witness :
    sortKey .distance (annotate .Op facTie2) = sortKey .distance (annotate .Op facTie1) ∧
    [annotate .Op facTie2, annotate .Op facTie1].Sublist
      ([facTie2, facTie1].map (annotate .Op)) ∧
    ((rankResults [facTie2, facTie1] .Op .distance).Sorted (sortRel .distance) ∧
      [annotate .Op facTie2, annotate .Op facTie1].Sublist
        (rankResults [facTie2, facTie1] .Op .distance)) :=
  ⟨rfl, List.Sublist.refl _,
    rank_sorted_and_stable [facTie2, facTie1] .Op .distance _ _ rfl
      (List.Sublist.refl _)⟩
